import Mathlib

/-!
Verification of the COSMO-CLM2 case configuration and run-chaining engine
(`COSMO_CLM2_tools/cosmo_clm2.py`), shallowly embedded in Lean 4.

Conventions of the embedding:
* Python `datetime.datetime` values are `DateTime` records (year, month, day,
  hour, minute, second); the program never uses sub-second resolution.
  Comparison and `timedelta` arithmetic go through `toSecs` (seconds relative
  to 1970-01-01, proleptic Gregorian calendar, the calendar `datetime` uses).
* Python exceptions are `Except Err` values; each raise site maps to one
  `Err` constructor.
* Namelist date fields (`ydate_ini`, `start_ymd`) hold the canonical
  zero-padded integer encodings that `strftime` produces for years >= 1000
  (the tool itself always writes them in that form); `strptime` of other
  encodings is modelled as a parse error.
* The float-valued namelist field `hstart` (hours) is modelled as an `Int`:
  the tool only ever writes whole-hour values into it (`// 3600.0`).
  Python's floor division `//` and floor modulo `%` are `Int.fdiv`/`Int.fmod`.
-/

namespace CosmoClm2

/-- Errors, one per raise site of the source. -/
inductive Err where
  | strptimeFail
  | intParse
  | malformedDuration
  | invalidDate
  | overflow
  | dateMismatch
  | durationMismatch
  | invalidRange
  | attrError
  | typeError
  | zeroDiv
deriving DecidableEq, Repr

/-- A Python `datetime.datetime` down to second resolution. -/
structure DateTime where
  year : Int
  month : Nat
  day : Nat
  hour : Nat
  minute : Nat
  second : Nat
deriving DecidableEq, Repr

/-- Gregorian leap-year rule, as used by `datetime`. -/
def isLeap (y : Int) : Bool :=
  (y.fmod 4 == 0 && y.fmod 100 != 0) || y.fmod 400 == 0

/-- Number of days of month `m` of year `y` (as in `calendar`/`datetime`). -/
def daysInMonth (y : Int) (m : Nat) : Nat :=
  if m = 2 then (if isLeap y then 29 else 28)
  else if m = 4 ∨ m = 6 ∨ m = 9 ∨ m = 11 then 30 else 31

/-- The range of dates a Python `datetime` can represent, with field bounds. -/
def DateTime.Valid (d : DateTime) : Prop :=
  1 ≤ d.year ∧ d.year ≤ 9999 ∧ 1 ≤ d.month ∧ d.month ≤ 12 ∧
  1 ≤ d.day ∧ d.day ≤ daysInMonth d.year d.month ∧
  d.hour < 24 ∧ d.minute < 60 ∧ d.second < 60

instance (d : DateTime) : Decidable d.Valid := by
  unfold DateTime.Valid; infer_instance

/-- Days from 1970-01-01 to year/month/day (proleptic Gregorian civil
calendar; the standard era-based conversion). -/
def daysFromCivil (y : Int) (m d : Nat) : Int :=
  let yAdj : Int := if m ≤ 2 then y - 1 else y
  let era : Int := yAdj.fdiv 400
  let yoe : Int := yAdj - era * 400
  let mp : Int := ((m : Int) + 9).fmod 12
  let doy : Int := (153 * mp + 2).fdiv 5 + (d : Int) - 1
  let doe : Int := yoe * 365 + yoe.fdiv 4 - yoe.fdiv 100 + doy
  era * 146097 + doe - 719468

/-- Inverse of `daysFromCivil`: day count from 1970-01-01 back to
(year, month, day). -/
def civilFromDays (z : Int) : Int × Nat × Nat :=
  let z2 := z + 719468
  let era := z2.fdiv 146097
  let doe := (z2 - era * 146097).toNat
  let yoe := (doe - doe / 1460 + doe / 36524 - doe / 146096) / 365
  let doy := doe - (365 * yoe + yoe / 4 - yoe / 100)
  let mp := (5 * doy + 2) / 153
  let d := doy - (153 * mp + 2) / 5 + 1
  let m := if mp < 10 then mp + 3 else mp - 9
  (((yoe : Int) + era * 400) + (if m ≤ 2 then 1 else 0), m, d)

/-- Seconds from 1970-01-01 00:00:00 to the given `DateTime`; the total order
and subtraction on `datetime` values are this map composed with `Int` order
and subtraction. -/
def toSecs (d : DateTime) : Int :=
  daysFromCivil d.year d.month d.day * 86400
    + d.hour * 3600 + d.minute * 60 + d.second

/-- Build a `DateTime` back from an absolute second count. -/
def fromSecs (t : Int) : DateTime :=
  let z := t.fdiv 86400
  let rem := (t.fmod 86400).toNat
  let c := civilFromDays z
  ⟨c.1, c.2.1, c.2.2, rem / 3600, rem / 60 % 60, rem % 60⟩

/-- Smallest representable `datetime`, in seconds (0001-01-01 00:00:00). -/
def minDateSecs : Int := toSecs ⟨1, 1, 1, 0, 0, 0⟩

/-- Largest whole-second `datetime`, in seconds (9999-12-31 23:59:59). -/
def maxDateSecs : Int := toSecs ⟨9999, 12, 31, 23, 59, 59⟩

/-- `date + timedelta(seconds=n)`: shifts the absolute time, raising
`OverflowError` outside the representable range, as `datetime` does. -/
def addSecondsE (d : DateTime) (n : Int) : Except Err DateTime :=
  let t := toSecs d + n
  if t < minDateSecs ∨ maxDateSecs < t then .error .overflow
  else .ok (fromSecs t)

/-- `min` of two dates, as Python `min(a, b)` under `datetime` order. -/
def minD (a b : DateTime) : DateTime :=
  if toSecs a ≤ toSecs b then a else b

/-- The `datetime(year, month, day, hour)` constructor: validates its
arguments (raising `ValueError` otherwise) and zeroes minute and second. -/
def mkDatetime (y : Int) (m d h : Nat) : Except Err DateTime :=
  if 1 ≤ y ∧ y ≤ 9999 ∧ 1 ≤ m ∧ m ≤ 12 ∧ 1 ≤ d ∧ d ≤ daysInMonth y m ∧ h ≤ 23
  then .ok ⟨y, m, d, h, 0, 0⟩
  else .error .invalidDate

/-- Python `int(str)` on a character list: optional sign then a nonempty
digit run; anything else raises `ValueError`. -/
def pyInt (cs : List Char) : Except Err Int :=
  match cs with
  | '-' :: rest =>
      if rest ≠ [] ∧ rest.all Char.isDigit
      then .ok (-(rest.foldl (fun a c => a * 10 + ((c.toNat : Int) - 48)) 0))
      else .error .intParse
  | '+' :: rest =>
      if rest ≠ [] ∧ rest.all Char.isDigit
      then .ok (rest.foldl (fun a c => a * 10 + ((c.toNat : Int) - 48)) 0)
      else .error .intParse
  | _ =>
      if cs ≠ [] ∧ cs.all Char.isDigit
      then .ok (cs.foldl (fun a c => a * 10 + ((c.toNat : Int) - 48)) 0)
      else .error .intParse

/-- One iteration of the scanning loop of `add_time_from_str`: at index `k`
with character `c`, update `(ky, ny, km, nm)` exactly as the source does,
including the off-by-one slice `dt_str[ky:k]` (which starts at the position
of the letter y itself when a y-part was seen). -/
def parseYmStep (cs : List Char) (acc : Nat × Int × Nat × Int) (k : Nat) (c : Char) :
    Except Err (Nat × Int × Nat × Int) := do
  let acc1 ← if c = 'y' then do
      let n ← pyInt (cs.take k)
      pure (k, n, acc.2.2.1, acc.2.2.2)
    else pure acc
  if c = 'm' then do
    let n ← pyInt ((cs.drop acc1.1).take (k - acc1.1))
    pure (acc1.1, acc1.2.1, k, n)
  else pure acc1

/-- The first scanning loop of `add_time_from_str`, yielding
`(ky, ny, km, nm)`. -/
def parseYm (cs : List Char) : Except Err (Nat × Int × Nat × Int) :=
  cs.enum.foldlM (fun acc p => parseYmStep cs acc p.1 p.2) (0, 0, 0, 0)

/-- The day-branch scanning loop of `add_time_from_str`, yielding
`(kd, nd)`. -/
def parseD (cs : List Char) : Except Err (Nat × Int) :=
  cs.enum.foldlM
    (fun (acc : Nat × Int) p =>
      if p.2 = 'd' then do
        let n ← pyInt (cs.take p.1)
        pure (p.1, n)
      else pure acc)
    (0, 0)

/-- `add_time_from_str(date1, dt_str)` of the source: increment a date from
a duration string of the form N1yN2m / N1y / N2m / N3d. -/
def add_time_from_str (date1 : DateTime) (dt_str : String) : Except Err DateTime :=
  match parseYm dt_str.toList with
  | .error e => .error e
  | .ok (ky, ny, km, nm) =>
    if km = 0 ∧ ky = 0 then
      match parseD dt_str.toList with
      | .error e => .error e
      | .ok (kd, nd) =>
        if kd = 0 then .error .malformedDuration
        else addSecondsE date1 (nd * 86400)
    else
      mkDatetime (date1.year + ny + (nm + (date1.month : Int) - 1).fdiv 12)
        ((nm + (date1.month : Int) - 1).fmod 12 + 1).toNat
        date1.day date1.hour

/-- An output block of `INPUT_IO/gribout`: the three entries of `hcomb`
(start hour, stop hour, activation threshold in hours), the write-constants
flag and the output directory. -/
structure Gribout where
  hcomb1 : Int
  hcomb2 : Int
  hcomb3 : Int
  lwrite_const : Bool
  ydir : String
deriving DecidableEq, Repr

/-- The `gribout` parameter of `INPUT_IO` as f90nml yields it: absent, one
single block (a plain dict), or a list of blocks. -/
inductive GriboutVal where
  | absent
  | single (g : Gribout)
  | blocks (gs : List Gribout)
deriving DecidableEq, Repr

/-- Map a function over every stored output block (the source mutates the
block dicts in place through the references `_get_gribouts` returns). -/
def mapGriboutVal (f : Gribout → Gribout) : GriboutVal → GriboutVal
  | .absent => .absent
  | .single g => .single (f g)
  | .blocks gs => .blocks (gs.map f)

/-- The namelist parameters of the case the engine reads or writes, across
`INPUT_ORG`, `INPUT_IO` and `drv_in`.  Date-valued string/int parameters
keep their integer `YYYYMMDDHH` / `YYYYMMDD` encodings. -/
structure Namelists where
  ydate_ini : Int
  ydate_end : Int
  hstart : Int
  nprocx : Int
  nprocy : Int
  nstop : Int
  dt : Int
  start_ymd : Int
  stop_n : Int
  restart_n : Int
  start_type : String
  case_name : String
  lnd_ntasks : Int
  ydirini : String
  ydir_restart_out : String
  nhour_restart : List Int
  ngribout : Int
  gribout : GriboutVal
deriving DecidableEq, Repr

/-- View a `GriboutVal` as the list of blocks it holds. -/
def griboutList : GriboutVal → List Gribout
  | .absent => []
  | .single g => [g]
  | .blocks gs => gs

/-- `case._get_gribouts`: the stored blocks as a list ([] when absent, the
singleton list when a single block is stored). -/
def get_gribouts (n : Namelists) : List Gribout :=
  griboutList n.gribout

/-- The in-memory state of a `case` object together with the persisted
(on-disk) copy of its namelists and the controller script's log-file name
(the only controller content the engine rewrites after creation). -/
structure CaseState where
  nml : Namelists
  written : Namelists
  name : String
  startDate : DateTime
  endDate : Option DateTime
  runStart : DateTime
  runEnd : DateTime
  runtimeSec : Option Int
  runLength : Option String
  dummyDay : Bool
  cosmoExe : String
  cesmExe : String
  controllerLog : String
  namcoupleRuntime : Option Int
deriving DecidableEq, Repr

/-- `strptime(ydate_ini, date_fmt_cosmo)`: decode the canonical ten-digit
`YYYYMMDDHH` integer encoding, validating the fields. -/
def parseYdate (n : Int) : Except Err DateTime :=
  if n < 1000000000 ∨ 10000000000 ≤ n then .error .strptimeFail
  else mkDatetime (n.fdiv 1000000)
    ((n.fdiv 10000).fmod 100).toNat ((n.fdiv 100).fmod 100).toNat (n.fmod 100).toNat

/-- `strptime(str(start_ymd), date_fmt_cesm)`: decode the canonical
eight-digit `YYYYMMDD` integer encoding, validating the fields. -/
def parseYmd (n : Int) : Except Err DateTime :=
  if n < 10000000 ∨ 100000000 ≤ n then .error .strptimeFail
  else mkDatetime (n.fdiv 10000) ((n.fdiv 100).fmod 100).toNat (n.fmod 100).toNat 0

/-- `int(d.strftime(date_fmt_cesm))`: the eight-digit date encoding. -/
def encodeYmd (d : DateTime) : Int :=
  d.year * 10000 + (d.month : Int) * 100 + (d.day : Int)

/-- `d.strftime(date_fmt_cosmo)` as an integer: the ten-digit encoding. -/
def encodeYdateH (d : DateTime) : Int :=
  encodeYmd d * 100 + (d.hour : Int)

/-- Zero-padded decimal rendering of a natural number, width `w`. -/
def padNum (w n : Nat) : String :=
  let s := toString n
  String.mk (List.replicate (w - s.length) '0') ++ s

/-- `d.strftime(date_fmt_cesm)` as text, for the controller log-file name. -/
def fmtYmd (d : DateTime) : String :=
  padNum 4 d.year.toNat ++ padNum 2 d.month ++ padNum 2 d.day

/-- The log-file name the controller builder and updater both format:
`{name}_{run_start:YYYYMMDD}-{run_end:YYYYMMDD}.out`. -/
def logfileName (s : CaseState) : String :=
  s.name ++ "_" ++ fmtYmd s.runStart ++ "-" ++ fmtYmd s.runEnd ++ ".out"

/-- `case._compute_run_dates`: reconcile the COSMO and CESM start dates and
derive the authoritative `(run_start, run_end, runtime)` of the chunk. -/
def compute_run_dates (s : CaseState) : Except Err CaseState :=
  match parseYdate s.nml.ydate_ini with
  | .error e => .error e
  | .ok dateIni =>
  match addSecondsE dateIni (s.nml.hstart * 3600) with
  | .error e => .error e
  | .ok dateCosmo =>
  match parseYmd s.nml.start_ymd with
  | .error e => .error e
  | .ok dateCesm =>
  if dateCosmo ≠ dateCesm then .error .dateMismatch
  else
    match s.endDate with
    | some endD =>
      if toSecs endD < toSecs dateCosmo then .error .invalidRange
      else if dateCosmo = endD then
        match addSecondsE endD 86400 with
        | .error e => .error e
        | .ok re =>
          .ok { s with runStart := dateCosmo, runEnd := re, runtimeSec := some 86400 }
      else
        match s.runLength with
        | none =>
          .ok { s with runStart := dateCosmo, runEnd := endD,
                       runtimeSec := some (toSecs endD - toSecs dateCosmo) }
        | some rl =>
          match add_time_from_str dateCosmo rl with
          | .error e => .error e
          | .ok d =>
            .ok { s with runStart := dateCosmo, runEnd := minD d endD,
                         runtimeSec := some (toSecs (minD d endD) - toSecs dateCosmo) }
    | none =>
      match s.runLength with
      | none =>
        if (s.nml.nstop + 1) * s.nml.dt - s.nml.hstart * 3600 ≠ s.nml.stop_n
        then .error .durationMismatch
        else
          match addSecondsE dateCosmo
              ((s.nml.nstop + 1) * s.nml.dt - s.nml.hstart * 3600) with
          | .error e => .error e
          | .ok re =>
            .ok { s with runStart := dateCosmo, runEnd := re,
                         runtimeSec :=
                           some ((s.nml.nstop + 1) * s.nml.dt - s.nml.hstart * 3600),
                         endDate := some re }
      | some rl =>
        match add_time_from_str dateCosmo rl with
        | .error e => .error e
        | .ok re =>
          .ok { s with runStart := dateCosmo, runEnd := re, endDate := some re }

/-- `case._apply_run_dates`: write the authoritative dates back into the
namelists (and the runtime into the `namcouple` coupling file). -/
def apply_run_dates (s : CaseState) : Except Err CaseState :=
  match s.runtimeSec with
  | none => .error .attrError
  | some rt =>
    let hstart := (toSecs s.runStart - toSecs s.startDate).fdiv 3600
    let hstop := hstart + rt.fdiv 3600
    if s.nml.dt = 0 then .error .zeroDiv
    else
      .ok { s with
        nml := { s.nml with
          nstop := (hstop * 3600).fdiv s.nml.dt - 1,
          gribout := mapGriboutVal
            (fun g => { g with hcomb1 := hstart, hcomb2 := hstop }) s.nml.gribout,
          nhour_restart := [hstop, hstop, 24],
          stop_n := rt,
          restart_n := rt },
        namcoupleRuntime := some rt }

/-- The retention test of `_check_gribout`:
`runtime_hours >= gribout[hcomb][2]`. -/
def griboutKeep (runtimeHours : Int) (g : Gribout) : Bool :=
  decide (g.hcomb3 ≤ runtimeHours)

/-- `case._check_gribout`: keep only the output blocks whose activation
threshold fits inside the chunk runtime; delete the parameter when all
blocks are pruned. -/
def check_gribout (s : CaseState) : Except Err CaseState :=
  match s.runtimeSec with
  | none => .error .attrError
  | some rt =>
    if (get_gribouts s.nml).filter (griboutKeep (rt.fdiv 3600)) ≠ [] then
      .ok { s with nml := { s.nml with
              gribout := .blocks ((get_gribouts s.nml).filter (griboutKeep (rt.fdiv 3600))),
              ngribout := ((get_gribouts s.nml).filter (griboutKeep (rt.fdiv 3600))).length } }
    else if get_gribouts s.nml ≠ [] then
      .ok { s with nml := { s.nml with gribout := .absent } }
    else .ok s

/-- Tasks per node (class-wide constant of `case`). -/
def n_tasks_per_node : Int := 12

/-- `case._build_proc_config`: rank ranges bound to each executable, and the
node count. -/
def build_proc_config (s : CaseState) : List (Int × Int × String) × Int :=
  let n_cos := s.nml.nprocx * s.nml.nprocy
  let n_cesm := s.nml.lnd_ntasks
  let n_tot := n_cos + n_cesm
  let n_nodes := n_tot.fdiv n_tasks_per_node
  ([(0, n_cos - 1, s.cosmoExe), (n_cos, n_tot - 1, s.cesmExe)], n_nodes)

/-- `case._update_controller`: substitute the new log-file name into the two
`#SBATCH` output/error lines, leaving the rest of the script untouched. -/
def update_controller (s : CaseState) : CaseState :=
  { s with controllerLog := logfileName s }

/-- The namelist mutations `set_next_run` performs before persisting:
new `hstart`, new `start_ymd`, restart-input directory, cleared
`lwrite_const` flags, and `start_type = continue`. -/
def advanceNml (s : CaseState) : Namelists :=
  { s.nml with
    hstart := (toSecs s.runEnd - toSecs s.startDate).fdiv 3600,
    start_ymd := encodeYmd s.runEnd,
    ydirini := s.nml.ydir_restart_out,
    gribout := mapGriboutVal (fun g => { g with lwrite_const := false }) s.nml.gribout,
    start_type := "continue" }

/-- `case.set_next_run`: the advance transition of the restart chain.
Returns the continue/terminal flag and the updated case. -/
def set_next_run (s : CaseState) : Except Err (Bool × CaseState) :=
  match s.endDate with
  | none => .error .typeError
  | some endD =>
    if toSecs endD ≤ toSecs s.runStart then .ok (false, s)
    else
      match compute_run_dates { s with nml := advanceNml s, written := advanceNml s } with
      | .error e => .error e
      | .ok s2 =>
        if ((update_controller s2).endDate = some (update_controller s2).runStart)
            ∧ (update_controller s2).dummyDay = false
        then .ok (false, update_controller s2)
        else .ok (true, update_controller s2)

/-- `case.__init__` for an explicitly given start date, end date and run
length: apply the date setters, reconcile and apply the run dates, filter
the output blocks, persist every namelist, and build the controller. -/
def caseInit (nml0 : Namelists) (name : String) (startD endD : DateTime)
    (runLength : Option String) (dummyDay : Bool) (cosmoExe cesmExe : String) :
    Except Err CaseState :=
  let nmlA := { nml0 with case_name := name,
                          ydate_ini := encodeYdateH startD,
                          ydate_end := encodeYdateH endD }
  let s0 : CaseState :=
    { nml := nmlA, written := nml0, name := name,
      startDate := startD, endDate := some endD,
      runStart := startD, runEnd := startD, runtimeSec := none,
      runLength := runLength, dummyDay := dummyDay,
      cosmoExe := cosmoExe, cesmExe := cesmExe,
      controllerLog := "", namcoupleRuntime := none }
  match compute_run_dates s0 with
  | .error e => .error e
  | .ok s1 =>
  match apply_run_dates s1 with
  | .error e => .error e
  | .ok s2 =>
  match check_gribout s2 with
  | .error e => .error e
  | .ok s3 =>
    let s4 := { s3 with written := s3.nml }
    .ok { s4 with controllerLog := logfileName s4 }

/-! Concrete configurations used to instantiate the theorems, and small
projection helpers for stating facts about computed case states. -/

/-- A consistent base namelist set: COSMO and CESM both start at
2020-01-01-00 (`ydate_ini` 2020010100 with `hstart` 0, `start_ymd`
20200101). -/
def nmlEx : Namelists :=
  { ydate_ini := 2020010100, ydate_end := 2020010300, hstart := 0,
    nprocx := 4, nprocy := 3, nstop := 0, dt := 3600,
    start_ymd := 20200101, stop_n := 0, restart_n := 0,
    start_type := "startup", case_name := "COSMO_CLM2", lnd_ntasks := 12,
    ydirini := "./input", ydir_restart_out := "./restart_out",
    nhour_restart := [0, 0, 24], ngribout := 0, gribout := GriboutVal.absent }

/-- A case over `nmlEx`: start 2020-01-01-00, end 2020-01-03-00, current
chunk [01-01, 01-02), run length one day, dummy day disabled. -/
def baseCase : CaseState :=
  { nml := nmlEx, written := nmlEx, name := "t",
    startDate := ⟨2020, 1, 1, 0, 0, 0⟩, endDate := some ⟨2020, 1, 3, 0, 0, 0⟩,
    runStart := ⟨2020, 1, 1, 0, 0, 0⟩, runEnd := ⟨2020, 1, 2, 0, 0, 0⟩,
    runtimeSec := some 86400, runLength := some "1d", dummyDay := false,
    cosmoExe := "cosmo", cesmExe := "cesm.exe",
    controllerLog := "", namcoupleRuntime := none }

/-- The spec's restart-chain scenario: start 2020-01-01-00, end
2020-01-03-00, run length one day. -/
def c3Init (dummy : Bool) : Except Err CaseState :=
  caseInit nmlEx "t" ⟨2020, 1, 1, 0, 0, 0⟩ ⟨2020, 1, 3, 0, 0, 0⟩
    (some "1d") dummy "cosmo" "cesm.exe"

/-- The namelists of the freshly constructed restart-chain case. -/
def c3nml0 : Namelists :=
  { ydate_ini := 2020010100, ydate_end := 2020010300, hstart := 0,
    nprocx := 4, nprocy := 3, nstop := 23, dt := 3600,
    start_ymd := 20200101, stop_n := 86400, restart_n := 86400,
    start_type := "startup", case_name := "t", lnd_ntasks := 12,
    ydirini := "./input", ydir_restart_out := "./restart_out",
    nhour_restart := [24, 24, 24], ngribout := 0, gribout := GriboutVal.absent }

/-- The namelists after the first advance (chunk [01-02, 01-03)). -/
def c3nml1 : Namelists :=
  { c3nml0 with hstart := 24, start_ymd := 20200102,
                start_type := "continue", ydirini := "./restart_out" }

/-- The namelists after the second advance (chunk [01-03, 01-04)). -/
def c3nml2 : Namelists :=
  { c3nml1 with hstart := 48, start_ymd := 20200103 }

/-- The freshly constructed restart-chain case: chunk [01-01, 01-02). -/
def c3s0 : CaseState :=
  { nml := c3nml0, written := c3nml0, name := "t",
    startDate := ⟨2020, 1, 1, 0, 0, 0⟩, endDate := some ⟨2020, 1, 3, 0, 0, 0⟩,
    runStart := ⟨2020, 1, 1, 0, 0, 0⟩, runEnd := ⟨2020, 1, 2, 0, 0, 0⟩,
    runtimeSec := some 86400, runLength := some "1d", dummyDay := false,
    cosmoExe := "cosmo", cesmExe := "cesm.exe",
    controllerLog := "t_20200101-20200102.out", namcoupleRuntime := some 86400 }

/-- The restart-chain case after one advance: chunk [01-02, 01-03). -/
def c3s1 : CaseState :=
  { c3s0 with nml := c3nml1, written := c3nml1,
              runStart := ⟨2020, 1, 2, 0, 0, 0⟩, runEnd := ⟨2020, 1, 3, 0, 0, 0⟩,
              controllerLog := "t_20200102-20200103.out" }

/-- The restart-chain case after two advances: the would-be dummy chunk
[01-03, 01-04). -/
def c3s2 : CaseState :=
  { c3s1 with nml := c3nml2, written := c3nml2,
              runStart := ⟨2020, 1, 3, 0, 0, 0⟩, runEnd := ⟨2020, 1, 4, 0, 0, 0⟩,
              controllerLog := "t_20200103-20200104.out" }

/-- Extract the state out of a successful computation (with fallback). -/
def okStateOr (x : Except Err CaseState) (d : CaseState) : CaseState :=
  match x with
  | .ok s => s
  | .error _ => d

/-- Extract the state out of a successful advance (with fallback). -/
def okSndOr (x : Except Err (Bool × CaseState)) (d : CaseState) : CaseState :=
  match x with
  | .ok p => p.2
  | .error _ => d

/-- Output block with a 48-hour activation threshold. -/
def gr48 : Gribout := ⟨0, 0, 48, true, "./out48"⟩

/-- Output block with a 96-hour activation threshold. -/
def gr96 : Gribout := ⟨0, 0, 96, true, "./out96"⟩

/-- A case holding both output blocks, with a 72-hour chunk runtime. -/
def c5S : CaseState :=
  { baseCase with runtimeSec := some 259200,
                  nml := { nmlEx with gribout := .blocks [gr48, gr96] } }

/-- A case whose current run start already equals the case end date. -/
def c1S : CaseState :=
  { baseCase with
    nml := { nmlEx with ydate_ini := 2020010300, start_ymd := 20200103 },
    runStart := ⟨2020, 1, 3, 0, 0, 0⟩ }

/-- A case whose COSMO start date is one hour past its CESM start date. -/
def c4S : CaseState :=
  { baseCase with nml := { nmlEx with ydate_ini := 2020010101 } }

/-- A case that has already reached its end date. -/
def c10S : CaseState := { baseCase with runStart := ⟨2020, 1, 3, 0, 0, 0⟩ }

/-! Helper lemmas shared by the claim theorems. -/

/-- Taking the minimum of two dates never goes past the second one. -/
theorem toSecs_minD_le (a b : DateTime) : toSecs (minD a b) ≤ toSecs b := by
  unfold minD
  split
  · assumption
  · exact le_refl _

/-- `_compute_run_dates` only rewrites the derived date fields: the
namelists, the persisted copy, and the remaining case attributes are left
untouched. -/
theorem compute_run_dates_frame (s s' : CaseState)
    (h : compute_run_dates s = Except.ok s') :
    s'.nml = s.nml ∧ s'.written = s.written ∧ s'.startDate = s.startDate
    ∧ s'.runLength = s.runLength ∧ s'.dummyDay = s.dummyDay
    ∧ s'.controllerLog = s.controllerLog ∧ s'.name = s.name := by
  unfold compute_run_dates at h
  repeat' split at h
  all_goals
    first
      | (injection h with h2; subst h2
         exact ⟨rfl, rfl, rfl, rfl, rfl, rfl, rfl⟩)
      | exact Except.noConfusion h

/-- Every block stored after `mapGriboutVal f` is the image under `f` of a
previously stored block. -/
theorem mem_griboutList_map (f : Gribout → Gribout) (v : GriboutVal) (g : Gribout)
    (h : g ∈ griboutList (mapGriboutVal f v)) : ∃ g0, g = f g0 := by
  cases v with
  | absent => simp [mapGriboutVal, griboutList] at h
  | single g0 =>
    simp [mapGriboutVal, griboutList] at h
    exact ⟨g0, h⟩
  | blocks gs =>
    simp [mapGriboutVal, griboutList, List.mem_map] at h
    obtain ⟨g0, _, hg⟩ := h
    exact ⟨g0, hg.symm⟩

/-- Filtering a second time with the same predicate changes nothing. -/
theorem filter_keep_idem (p : Gribout → Bool) (l : List Gribout) :
    (l.filter p).filter p = l.filter p := by
  induction l with
  | nil => rfl
  | cons a l ih =>
    by_cases hp : p a
    · simp [List.filter, hp, ih]
    · simp [List.filter, hp, ih]

/-! Claim theorems. -/

/-- C2 (code_bug evidence): the duration docstring promises the combined
form N1yN2m, but on input 1y2m the scanning loop slices the string from the
position of the letter y inclusive, so the month part is parsed as the
non-numeral string y2 and the call raises `ValueError` instead of advancing
the date by one year and two months. -/
theorem c2_combined_form_raises :
    add_time_from_str ⟨2000, 6, 15, 0, 0, 0⟩ "1y2m" = Except.error Err.intParse := by
  rfl

/-- C3 counterexample: with `dummy_day` disabled, the terminal signal
already comes on the SECOND `set_next_run` call (the first call returns
true, the second returns false), not on the third as claimed; and the
chunk [01-01, 01-02) is produced by construction, not by any call. -/
theorem c3_counterexample :
    c3Init false = Except.ok c3s0
    ∧ set_next_run c3s0 = Except.ok (true, c3s1)
    ∧ set_next_run c3s1 = Except.ok (false, c3s2) :=
  ⟨rfl, rfl, rfl⟩

/-- C3 amended: construction yields the first chunk [01-01, 01-02); with
dummy_day disabled, call 1 advances to [01-02, 01-03) returning true,
call 2 moves the state to the would-be dummy chunk [01-03, 01-04) but
returns false (terminal), and call 3 returns false leaving the state
unchanged; with dummy_day enabled, call 2 instead returns true, so the
additional one-day chunk [01-03, 01-04) runs, and call 3 returns false
leaving the state unchanged.  Each call returns true exactly when a
further chunk will be submitted after it. -/
theorem c3_trace_amended :
    c3Init false = Except.ok c3s0
    ∧ c3s0.runStart = ⟨2020, 1, 1, 0, 0, 0⟩ ∧ c3s0.runEnd = ⟨2020, 1, 2, 0, 0, 0⟩
    ∧ set_next_run c3s0 = Except.ok (true, c3s1)
    ∧ c3s1.runStart = ⟨2020, 1, 2, 0, 0, 0⟩ ∧ c3s1.runEnd = ⟨2020, 1, 3, 0, 0, 0⟩
    ∧ set_next_run c3s1 = Except.ok (false, c3s2)
    ∧ c3s2.runStart = ⟨2020, 1, 3, 0, 0, 0⟩ ∧ c3s2.runEnd = ⟨2020, 1, 4, 0, 0, 0⟩
    ∧ set_next_run c3s2 = Except.ok (false, c3s2)
    ∧ c3Init true = Except.ok { c3s0 with dummyDay := true }
    ∧ set_next_run { c3s0 with dummyDay := true }
        = Except.ok (true, { c3s1 with dummyDay := true })
    ∧ set_next_run { c3s1 with dummyDay := true }
        = Except.ok (true, { c3s2 with dummyDay := true })
    ∧ set_next_run { c3s2 with dummyDay := true }
        = Except.ok (false, { c3s2 with dummyDay := true }) :=
  ⟨rfl, rfl, rfl, rfl, rfl, rfl, rfl, rfl, rfl, rfl, rfl, rfl, rfl, rfl⟩

/-- C10: when the current run start date has reached the case end date,
`set_next_run` returns false and the state — namelists, persisted files and
controller alike — is returned unchanged. -/
theorem c10_terminal_noop (s : CaseState) (endD : DateTime)
    (hend : s.endDate = some endD)
    (hge : toSecs endD ≤ toSecs s.runStart) :
    set_next_run s = Except.ok (false, s) := by
  unfold set_next_run
  rw [hend]
  simp [hge]

/-- C10 witness: the guard fires on a concrete finished case. -/
theorem c10_terminal_noop_witness :
    set_next_run c10S = Except.ok (false, c10S) :=
  c10_terminal_noop c10S ⟨2020, 1, 3, 0, 0, 0⟩ rfl (by decide)

/-- C4: whenever the atmosphere start date (ydate_ini plus hstart hours)
and the coupler start date (start_ymd) both decode but disagree — by any
nonzero amount — `_compute_run_dates` fails with the date-mismatch error
instead of picking one of the two. -/
theorem c4_date_mismatch (s : CaseState) (d0 dc de : DateTime)
    (h0 : parseYdate s.nml.ydate_ini = Except.ok d0)
    (h1 : addSecondsE d0 (s.nml.hstart * 3600) = Except.ok dc)
    (h2 : parseYmd s.nml.start_ymd = Except.ok de)
    (hne : dc ≠ de) :
    compute_run_dates s = Except.error Err.dateMismatch := by
  unfold compute_run_dates
  rw [h0]
  dsimp only
  rw [h1]
  dsimp only
  rw [h2]
  dsimp only
  simp [hne]

/-- C4 witness: a single hour of disagreement (COSMO at 2020-01-01 01:00,
CESM at 2020-01-01 00:00) is fatal. -/
theorem c4_date_mismatch_witness :
    compute_run_dates c4S = Except.error Err.dateMismatch :=
  c4_date_mismatch c4S ⟨2020, 1, 1, 1, 0, 0⟩ ⟨2020, 1, 1, 1, 0, 0⟩
    ⟨2020, 1, 1, 0, 0, 0⟩ rfl rfl rfl (by decide)

/-- C1 counterexample: with the case end date set and the run start equal
to it, `_compute_run_dates` succeeds and produces a run end one full day
PAST the case end date, violating the invariant as stated. -/
theorem c1_counterexample :
    c1S.endDate = some ⟨2020, 1, 3, 0, 0, 0⟩
    ∧ compute_run_dates c1S = Except.ok (okStateOr (compute_run_dates c1S) baseCase)
    ∧ toSecs ⟨2020, 1, 3, 0, 0, 0⟩
        < toSecs (okStateOr (compute_run_dates c1S) baseCase).runEnd := by
  refine ⟨rfl, rfl, by decide⟩

/-- C1 amended: when a case end date is set and `_compute_run_dates`
succeeds, the run end never exceeds the case end date EXCEPT in the forced
minimum-chunk branch: if the run start equals the case end date, the run
end is exactly one day past it (runtime one day). -/
theorem c1_run_end_bound_amended (s : CaseState) (endD : DateTime) (s' : CaseState)
    (hend : s.endDate = some endD)
    (h : compute_run_dates s = Except.ok s') :
    (s'.runStart ≠ endD → toSecs s'.runEnd ≤ toSecs endD)
    ∧ (s'.runStart = endD →
        addSecondsE endD 86400 = Except.ok s'.runEnd
        ∧ s'.runtimeSec = some 86400) := by
  unfold compute_run_dates at h
  rw [hend] at h
  repeat' split at h
  all_goals first
    | exact Except.noConfusion h
    | (injection h with h2; subst h2
       constructor
       · intro hne
         simp_all [toSecs_minD_le]
       · intro heq
         simp_all)

/-- C1 amended witness: on the concrete forced-minimum-chunk case the
amended statement is inhabited. -/
theorem c1_run_end_bound_amended_witness :
    ((okStateOr (compute_run_dates c1S) baseCase).runStart ≠ ⟨2020, 1, 3, 0, 0, 0⟩ →
      toSecs (okStateOr (compute_run_dates c1S) baseCase).runEnd
        ≤ toSecs ⟨2020, 1, 3, 0, 0, 0⟩)
    ∧ ((okStateOr (compute_run_dates c1S) baseCase).runStart = ⟨2020, 1, 3, 0, 0, 0⟩ →
        addSecondsE ⟨2020, 1, 3, 0, 0, 0⟩ 86400
          = Except.ok (okStateOr (compute_run_dates c1S) baseCase).runEnd
        ∧ (okStateOr (compute_run_dates c1S) baseCase).runtimeSec = some 86400) :=
  c1_run_end_bound_amended c1S ⟨2020, 1, 3, 0, 0, 0⟩
    (okStateOr (compute_run_dates c1S) baseCase) rfl rfl

/-- C5: `_check_gribout` retains a block iff the chunk duration in hours
reaches the block's threshold (`hcomb[2]`); when at least one block
survives it stores the retained list and sets `ngribout` to its length;
when none survives but the input was non-empty it deletes the `gribout`
parameter entirely (leaving `ngribout` untouched rather than zero). -/
theorem c5_gribout_filter (s : CaseState) (rt : Int) (s' : CaseState)
    (hrt : s.runtimeSec = some rt)
    (h : check_gribout s = Except.ok s') :
    (∀ g, g ∈ (get_gribouts s.nml).filter (griboutKeep (rt.fdiv 3600))
        ↔ g ∈ get_gribouts s.nml ∧ g.hcomb3 ≤ rt.fdiv 3600)
    ∧ ((get_gribouts s.nml).filter (griboutKeep (rt.fdiv 3600)) ≠ [] →
        s'.nml.gribout
          = GriboutVal.blocks ((get_gribouts s.nml).filter (griboutKeep (rt.fdiv 3600)))
        ∧ s'.nml.ngribout
          = (((get_gribouts s.nml).filter (griboutKeep (rt.fdiv 3600))).length : Int))
    ∧ ((get_gribouts s.nml).filter (griboutKeep (rt.fdiv 3600)) = [] →
        get_gribouts s.nml ≠ [] →
        s'.nml.gribout = GriboutVal.absent ∧ s'.nml.ngribout = s.nml.ngribout) := by
  unfold check_gribout at h
  rw [hrt] at h
  dsimp only at h
  refine ⟨?_, ?_, ?_⟩
  · intro g
    simp [List.mem_filter, griboutKeep]
  · intro hne
    rw [if_pos hne] at h
    injection h with h2
    subst h2
    exact ⟨rfl, rfl⟩
  · intro he hin
    rw [he] at h
    simp only [ne_eq, not_true_eq_false, if_false, ite_not] at h
    rw [if_neg] at h
    · injection h with h2
      subst h2
      exact ⟨rfl, rfl⟩
    · simpa using hin

/-- C5 witness: a 72-hour chunk keeps the 48-hour block, drops the 96-hour
block, and stores count 1. -/
theorem c5_gribout_filter_witness :
    (okStateOr (check_gribout c5S) baseCase).nml.gribout = GriboutVal.blocks [gr48]
    ∧ (okStateOr (check_gribout c5S) baseCase).nml.ngribout = 1 := by
  have h := c5_gribout_filter c5S 259200 (okStateOr (check_gribout c5S) baseCase) rfl rfl
  have h2 := h.2.1 (by decide)
  exact ⟨h2.1, h2.2⟩

/-- C9: `_check_gribout` is idempotent: on the state it produces, running
it again with the same chunk duration retains the same set and leaves the
whole case state (including the namelists) unchanged. -/
theorem c9_filter_idempotent (s s' : CaseState)
    (h : check_gribout s = Except.ok s') :
    check_gribout s' = Except.ok s' := by
  unfold check_gribout at h ⊢
  cases hrt : s.runtimeSec with
  | none =>
    rw [hrt] at h
    exact Except.noConfusion h
  | some rt =>
    rw [hrt] at h
    dsimp only at h
    split at h
    case isTrue hne =>
      injection h with h2
      subst h2
      dsimp only
      simp only [get_gribouts, griboutList, filter_keep_idem] at hne ⊢
      rw [if_pos hne]
    case isFalse hne =>
      split at h
      case isTrue hin =>
        injection h with h2
        subst h2
        dsimp only
        simp only [get_gribouts, griboutList, List.filter_nil]
        simp
      case isFalse hin =>
        injection h with h2
        subst h2
        rw [hrt]
        dsimp only
        rw [if_neg hne, if_neg hin]

/-- C9 witness: refiltering the filtered 72-hour case is a no-op. -/
theorem c9_filter_idempotent_witness :
    check_gribout (okStateOr (check_gribout c5S) baseCase)
      = Except.ok (okStateOr (check_gribout c5S) baseCase) :=
  c9_filter_idempotent c5S (okStateOr (check_gribout c5S) baseCase) rfl

/-- C6: `_build_proc_config` derives the atmosphere process count
nprocx * nprocy, the total as atmosphere plus the land-component task
count, the node count as floor(total / 12), and exactly two contiguous
rank ranges [0, n_atm-1] for the atmosphere executable and
[n_atm, total-1] for the coupled-model executable; in particular 4 x 3
COSMO ranks with 12 CESM tasks give 24 ranks on 2 nodes split
[0-11] / [12-23]. -/
theorem c6_proc_layout (s : CaseState)
    (h1 : s.nml.nprocx = 4) (h2 : s.nml.nprocy = 3) (h3 : s.nml.lnd_ntasks = 12) :
    (build_proc_config s).1
      = [(0, s.nml.nprocx * s.nml.nprocy - 1, s.cosmoExe),
         (s.nml.nprocx * s.nml.nprocy,
          s.nml.nprocx * s.nml.nprocy + s.nml.lnd_ntasks - 1, s.cesmExe)]
    ∧ (build_proc_config s).2
      = (s.nml.nprocx * s.nml.nprocy + s.nml.lnd_ntasks).fdiv n_tasks_per_node
    ∧ (build_proc_config s).1 = [(0, 11, s.cosmoExe), (12, 23, s.cesmExe)]
    ∧ (build_proc_config s).2 = 2 := by
  refine ⟨rfl, rfl, ?_, ?_⟩ <;>
    simp [build_proc_config, h1, h2, h3, n_tasks_per_node]

/-- C6 witness: the concrete 4 x 3 + 12 layout of the spec. -/
theorem c6_proc_layout_witness :
    (build_proc_config baseCase).1 = [(0, 11, "cosmo"), (12, 23, "cesm.exe")]
    ∧ (build_proc_config baseCase).2 = 2 :=
  ⟨(c6_proc_layout baseCase rfl rfl rfl).2.2.1,
   (c6_proc_layout baseCase rfl rfl rfl).2.2.2⟩

/-- C7 counterexample: the year/month form does NOT clamp an overflowing
day-of-month — `datetime(2020, 2, 31, ...)` raises, so 2020-01-31 plus one
month is an error, not 2020-02-29; and it does not preserve sub-hour
components — minutes are dropped to zero. -/
theorem c7_counterexample :
    add_time_from_str ⟨2020, 1, 31, 5, 0, 0⟩ "1m" = Except.error Err.invalidDate
    ∧ add_time_from_str ⟨2020, 1, 15, 5, 30, 0⟩ "1m"
        = Except.ok ⟨2020, 2, 15, 5, 0, 0⟩ :=
  ⟨rfl, rfl⟩

/-- C7 amended: whenever the year/month branch of `add_time_from_str` is
taken, a successful result keeps the source day-of-month and hour and
resets minute and second to zero, and if the source day-of-month does not
exist in the target month the call fails with the invalid-date error
instead of clamping. -/
theorem c7_ym_fields_amended (d : DateTime) (dt_str : String) (ky km : Nat) (ny nm : Int)
    (hp : parseYm dt_str.toList = Except.ok (ky, ny, km, nm))
    (hbranch : ¬(km = 0 ∧ ky = 0)) :
    (∀ r, add_time_from_str d dt_str = Except.ok r →
        r.hour = d.hour ∧ r.minute = 0 ∧ r.second = 0 ∧ r.day = d.day)
    ∧ (daysInMonth (d.year + ny + (nm + (d.month : Int) - 1).fdiv 12)
          ((nm + (d.month : Int) - 1).fmod 12 + 1).toNat < d.day →
        add_time_from_str d dt_str = Except.error Err.invalidDate) := by
  unfold add_time_from_str
  rw [hp]
  dsimp only
  rw [if_neg hbranch]
  constructor
  · intro r hr
    unfold mkDatetime at hr
    split at hr
    · injection hr with h2
      subst h2
      exact ⟨rfl, rfl, rfl, rfl⟩
    · exact Except.noConfusion hr
  · intro hday
    unfold mkDatetime
    rw [if_neg]
    intro hc
    exact absurd hc.2.2.2.2.2.1 (by omega)

/-- C7 amended witness: mid-January plus two months lands on mid-March with
the hour preserved and the minutes zeroed. -/
theorem c7_ym_fields_amended_witness :
    (∀ r, add_time_from_str ⟨2020, 1, 15, 5, 30, 0⟩ "2m" = Except.ok r →
        r.hour = 5 ∧ r.minute = 0 ∧ r.second = 0 ∧ r.day = 15)
    ∧ (daysInMonth (2020 + 0 + ((2 : Int) + 1 - 1).fdiv 12)
          (((2 : Int) + 1 - 1).fmod 12 + 1).toNat < 15 →
        add_time_from_str ⟨2020, 1, 15, 5, 30, 0⟩ "2m" = Except.error Err.invalidDate) :=
  c7_ym_fields_amended ⟨2020, 1, 15, 5, 30, 0⟩ "2m" 0 1 0 2 rfl (by decide)

/-- C8: when `set_next_run` proceeds past its guard and succeeds, the
persisted namelists carry the new atmosphere hour offset (previous chunk
end minus case start, in hours), the coupler start date set to the
previous chunk end, the restart-input directory pointed at the
restart-output directory, `lwrite_const` cleared on every retained output
block, and the coupler start type set to continue — and the in-memory
namelists agree with the persisted copy, all of this being in place before
the date recomputation (which leaves namelists untouched). -/
theorem c8_advance_effects (s : CaseState) (endD : DateTime) (b : Bool) (s' : CaseState)
    (hend : s.endDate = some endD)
    (hlt : toSecs s.runStart < toSecs endD)
    (h : set_next_run s = Except.ok (b, s')) :
    s'.written.hstart = (toSecs s.runEnd - toSecs s.startDate).fdiv 3600
    ∧ s'.written.start_ymd = encodeYmd s.runEnd
    ∧ s'.written.ydirini = s.nml.ydir_restart_out
    ∧ (∀ g, g ∈ get_gribouts s'.written → g.lwrite_const = false)
    ∧ s'.written.start_type = "continue"
    ∧ s'.nml = s'.written := by
  unfold set_next_run at h
  rw [hend] at h
  dsimp only at h
  rw [if_neg (not_le.mpr hlt)] at h
  split at h
  · exact Except.noConfusion h
  · rename_i s2 heq
    have hframe := compute_run_dates_frame _ _ heq
    have hs2 : s' = update_controller s2 := by
      split at h <;>
        (injection h with h2
         injection h2 with h3 h4
         exact h4.symm)
    subst hs2
    have hw : (update_controller s2).written = advanceNml s := hframe.2.1
    have hn : (update_controller s2).nml = advanceNml s := hframe.1
    rw [hw, hn]
    refine ⟨rfl, rfl, rfl, ?_, rfl, rfl⟩
    intro g hg
    obtain ⟨g0, hg0⟩ := mem_griboutList_map _ _ _ hg
    rw [hg0]

/-- C8 witness: advancing the base case from chunk [01-01, 01-02) writes
hour offset 24, coupler date 20200102, the restart directory, cleared
flags and continue into the persisted namelists. -/
theorem c8_advance_effects_witness :
    (okSndOr (set_next_run baseCase) baseCase).written.hstart = 24
    ∧ (okSndOr (set_next_run baseCase) baseCase).written.start_ymd = 20200102
    ∧ (okSndOr (set_next_run baseCase) baseCase).written.ydirini = "./restart_out"
    ∧ (∀ g, g ∈ get_gribouts (okSndOr (set_next_run baseCase) baseCase).written →
        g.lwrite_const = false)
    ∧ (okSndOr (set_next_run baseCase) baseCase).written.start_type = "continue"
    ∧ (okSndOr (set_next_run baseCase) baseCase).nml
        = (okSndOr (set_next_run baseCase) baseCase).written :=
  c8_advance_effects baseCase ⟨2020, 1, 3, 0, 0, 0⟩ true
    (okSndOr (set_next_run baseCase) baseCase) rfl (by decide) rfl

end CosmoClm2
